import Mathlib

/-!
Shallow embedding of the authentication, token-lifecycle and contact
subsystem of the contact-management backend (`project/main.py`,
`project/models.py`, `project/security.py`, `project/crud.py`), together
with proofs of the specified properties.

External collaborators (the passlib bcrypt context, the python-jose JWT
codec, the slowapi rate limiter) are not part of the repository; where a
property depends on them they are modelled from the spec, as flagged in
the corresponding doc comments.
-/

namespace Project

/-- Server configuration read from the environment: the JWT signing secret
`SECRET_KEY` and the signature algorithm `ALGORITHM` (main.py lines 41-42). -/
structure Env where
  secretKey : String
  algorithm : String
deriving DecidableEq, Repr

/-! ### Credential hasher (security.py) -/

/-- A password digest.  Modelled from the spec: the hasher itself is the
external passlib bcrypt context (security.py line 4); per spec §4.1 the digest
embeds a salt and determines the password-verification relation
(`verify(P, hash(P))` true, `verify(P', hash(P))` false for `P' ≠ P`), so the
digest is modelled as the salt together with an injective image of the
password. -/
structure Digest where
  salt : String
  body : String
deriving DecidableEq, Repr

/-- Modelled from the spec: `get_password_hash` (security.py lines 7-19)
delegates to `pwd_context.hash`, which draws a salt and produces a digest
embedding that salt; the bcrypt computation is external and modelled per
spec §4.1 as a salted injective digest. -/
def get_password_hash (salt password : String) : Digest :=
  ⟨salt, password⟩

/-- Modelled from the spec: `verify_password` (security.py lines 22-33)
delegates to `pwd_context.verify`, which re-derives the digest from the
candidate password and the salt embedded in the stored digest and compares. -/
def verify_password (plain : String) (hashed : Digest) : Bool :=
  plain == hashed.body

/-! ### Token service (JWT, main.py) -/

/-- Modelled from the spec (§4.2): the claim set `{sub, exp}` carried by a
signed token.  `sub` is optional because the code itself guards against a
missing `sub` claim (main.py lines 127-128); `exp` is in seconds since the
epoch. -/
structure JwtClaims where
  sub : Option String
  exp : Nat
deriving DecidableEq, Repr

/-- Modelled from the spec (§4.2): a signed token.  The signature is modelled
by recording the key and algorithm the token was signed with; signature
verification succeeds exactly when they match the verifier's key and
algorithm. -/
structure Jwt where
  claims : JwtClaims
  key : String
  alg : String
deriving DecidableEq, Repr

/-- Modelled from the spec (§4.2):
`jwt.encode(claims, SECRET_KEY, algorithm=ALGORITHM)`. -/
def jwt_encode (claims : JwtClaims) (env : Env) : Jwt :=
  ⟨claims, env.secretKey, env.algorithm⟩

/-- Modelled from the spec (§4.2):
`jwt.decode(token, SECRET_KEY, algorithms=[ALGORITHM])` verifies the
signature and the expiry; per the spec an issued token is valid until
exactly `exp` and rejected from `exp` on.  `none` models `JWTError`. -/
def jwt_decode (t : Jwt) (env : Env) (now : Nat) : Option JwtClaims :=
  if t.key = env.secretKey ∧ t.alg = env.algorithm ∧ now < t.claims.exp then
    some t.claims
  else none

/-- Access-token lifetime, `timedelta(minutes=15)` (main.py line 384), in
seconds. -/
def accessTokenTtl : Nat := 15 * 60

/-- Refresh-token lifetime, `timedelta(days=7)` (main.py line 455), in
seconds. -/
def refreshTokenTtl : Nat := 7 * 24 * 60 * 60

/-- `create_access_token` (main.py lines 373-387): copies the caller's data
(`{"sub": ...}` at both call sites, main.py lines 416 and 440), adds
`exp = now + 15 minutes` and signs with the server key and algorithm. -/
def create_access_token (env : Env) (sub : Option String) (now : Nat) : Jwt :=
  jwt_encode ⟨sub, now + accessTokenTtl⟩ env

/-- `create_refresh_token` (main.py lines 444-458): same as
`create_access_token` but with `exp = now + 7 days`. -/
def create_refresh_token (env : Env) (sub : Option String) (now : Nat) : Jwt :=
  jwt_encode ⟨sub, now + refreshTokenTtl⟩ env

/-! ### User store (models.py, crud.py) -/

/-- A row of the `users` table, holding exactly the mapped columns
(models.py lines 158-165; the alembic migration declares the same set).
There is no `is_active` column: the assignment at main.py line 205 creates
only a transient attribute on the loaded object, modelled in `LoadedUser`. -/
structure UserRec where
  id : Nat
  email : String
  hashed_password : Digest
  is_verified : Bool
  verification_token : Option String
  avatar_url : Option String
deriving DecidableEq, Repr

abbrev UserDB := List UserRec

/-- `get_user_by_email` (crud.py lines 159-170):
`db.query(User).filter(User.email == email).first()`. -/
def get_user_by_email (db : UserDB) (email : String) : Option UserRec :=
  db.find? (fun u => u.email == email)

/-! ### Current-user resolution (main.py `get_current_user`) -/

/-- Outcome of `get_current_user`: `unauthenticated` is the 401
`"Could not validate credentials"` response. -/
inductive AuthResult where
  | ok (user : UserRec)
  | unauthenticated
deriving DecidableEq, Repr

/-- `get_current_user` (main.py lines 104-135): decodes the bearer token
with the server key and algorithm, requires a `sub` claim, and looks the
subject up by email; any failure yields the 401 response. -/
def get_current_user (env : Env) (token : Jwt) (db : UserDB) (now : Nat) :
    AuthResult :=
  match jwt_decode token env now with
  | none => .unauthenticated
  | some payload =>
    match payload.sub with
    | none => .unauthenticated
    | some email =>
      match get_user_by_email db email with
      | none => .unauthenticated
      | some u => .ok u

/-! ### Email verification (main.py `verify`) -/

/-- Outcome of the `verify` endpoint: `ok` carries the user table after the
commit, `invalidToken` is the 400 `"Invalid token"` response. -/
inductive VerifyResult where
  | ok (db : UserDB)
  | invalidToken
deriving DecidableEq, Repr

/-- The in-memory object `verify` mutates before committing: the mapped row
together with the `is_active` attribute assigned at main.py line 205.
`is_active` is not a column of the users table, so it lives only on the
loaded Python object for the duration of the request. -/
structure LoadedUser where
  row : UserRec
  is_active : Option Bool
deriving DecidableEq, Repr

/-- The three assignments `verify` performs on the loaded object (main.py
lines 204-206): `is_verified = True` and `verification_token = None` touch
mapped columns; `is_active = True` only creates the transient attribute. -/
def verifyAssignments (u : UserRec) : LoadedUser :=
  ⟨{ u with is_verified := true, verification_token := none }, some true⟩

/-- What `db.commit()` (main.py line 208) persists of the mutated object:
the mapped columns only.  The unmapped `is_active` attribute is not flushed
and is dropped with the object at the end of the request. -/
def commitLoaded (l : LoadedUser) : UserRec :=
  l.row

/-- The persisted effect of `verify` on the matched user: the row as
committed — `is_verified = true` and the token cleared. -/
def consumeVerification (u : UserRec) : UserRec :=
  commitLoaded (verifyAssignments u)

/-- Locates the first user whose `verification_token` matches (the
`.filter(...).first()` query, main.py line 199) and applies
`consumeVerification` to it; `none` when no user holds the token. -/
def verifyUpdate (token : String) : UserDB → Option UserDB
  | [] => none
  | u :: rest =>
    if u.verification_token = some token then
      some (consumeVerification u :: rest)
    else
      (verifyUpdate token rest).map (fun db => u :: db)

/-- `verify` (main.py lines 184-210). -/
def verify (db : UserDB) (token : String) : VerifyResult :=
  match verifyUpdate token db with
  | none => .invalidToken
  | some db' => .ok db'

/-- Number of users in the table holding a given verification token.  The
column carries a unique index (models.py line 164), so a well-formed table
has at most one holder per token. -/
def countHolders (db : UserDB) (token : String) : Nat :=
  (db.filter (fun u => u.verification_token == some token)).length

/-! ### Login (main.py `login_for_access_token`) -/

/-- Outcome of `POST /token/`: `ok` carries the two issued tokens (the
response also carries `token_type: "bearer"`); `invalidCredentials` is the
401 `"Incorrect username or password"` response. -/
inductive LoginResult where
  | ok (access_token refresh_token : Jwt)
  | invalidCredentials
deriving DecidableEq, Repr

/-- `login_for_access_token` (main.py lines 389-422): looks the user up by
email; `db_user is None or not verify_password(...)` yields the single 401
response, otherwise a fresh access and refresh token are issued with the
email as subject. -/
def login_for_access_token (env : Env) (db : UserDB)
    (username password : String) (now : Nat) : LoginResult :=
  match get_user_by_email db username with
  | none => .invalidCredentials
  | some u =>
    if verify_password password u.hashed_password then
      .ok (create_access_token env (some username) now)
        (create_refresh_token env (some username) now)
    else
      .invalidCredentials

/-! ### Refresh (main.py `refresh_access_token`) -/

/-- `verify_refresh_token` (main.py lines 461-482): `jwt.decode` with the
same key and algorithm as every other decode; `none` models the `JWTError`
branch, surfaced as the 401 `"Invalid refresh token"` response. -/
def verify_refresh_token (env : Env) (token : Jwt) (now : Nat) :
    Option JwtClaims :=
  jwt_decode token env now

/-- Outcome of `POST /token/refresh/`.  `serverError` models the uncaught
`KeyError` raised by `payload["sub"]` (main.py line 440) when the decoded
claim set has no `sub`. -/
inductive RefreshResult where
  | ok (access_token : Jwt)
  | invalidToken
  | serverError
deriving DecidableEq, Repr

/-- `refresh_access_token` (main.py lines 425-441): decodes the presented
token, then issues a new access token for `payload["sub"]`. -/
def refresh_access_token (env : Env) (token : Jwt) (now : Nat) :
    RefreshResult :=
  match verify_refresh_token env token now with
  | none => .invalidToken
  | some payload =>
    match payload.sub with
    | some s => .ok (create_access_token env (some s) now)
    | none => .serverError

/-! ### Contacts (models.py, crud.py) -/

/-- The `ContactCreate` request model (models.py lines 10-27); the birthday
is modelled as a day ordinal. -/
structure ContactCreate where
  first_name : String
  last_name : String
  email : String
  phone_number : String
  birthday : Nat
  additional_data : String
deriving DecidableEq, Repr

/-- A row of the `contacts` table (models.py lines 111-138). -/
structure ContactRec where
  id : Nat
  first_name : String
  last_name : String
  email : String
  phone_number : String
  birthday : Nat
  additional_data : String
  owner_id : Option Nat
deriving DecidableEq, Repr

/-- `create_contact` (crud.py lines 7-23): inserts a row built from the
request data with `owner_id = current_user.id`; returns the new table and
the inserted row (`nextId` models the autoincrement primary key). -/
def create_contact (contacts : List ContactRec) (nextId : Nat)
    (c : ContactCreate) (current_user : UserRec) :
    List ContactRec × ContactRec :=
  let row : ContactRec :=
    ⟨nextId, c.first_name, c.last_name, c.email, c.phone_number, c.birthday,
      c.additional_data, some current_user.id⟩
  (contacts ++ [row], row)

/-- `get_contacts` (crud.py lines 26-38):
`query(Contact).offset(skip).limit(limit).all()` — every user's contacts,
paginated, with no owner filter. -/
def get_contacts (contacts : List ContactRec) (skip limit : Nat) :
    List ContactRec :=
  (contacts.drop skip).take limit

/-- `get_contact_by_id` (crud.py lines 41-52). -/
def get_contact_by_id (contacts : List ContactRec) (contact_id : Nat) :
    Option ContactRec :=
  contacts.find? (fun c => c.id == contact_id)

/-- The field overwrite `update_contact` performs on the loaded row
(crud.py lines 70-75); the owner is untouched. -/
def applyContactData (d : ContactCreate) (c : ContactRec) : ContactRec :=
  { c with first_name := d.first_name, last_name := d.last_name,
           email := d.email, phone_number := d.phone_number,
           birthday := d.birthday, additional_data := d.additional_data }

/-- `update_contact` (crud.py lines 55-78): loads by id (primary key, hence
unique) and overwrites the six data fields; on a missing id the Python
dereferences `None` and raises, modelled as `none`. -/
def update_contact (contacts : List ContactRec) (contact_id : Nat)
    (d : ContactCreate) : Option (List ContactRec × ContactRec) :=
  match get_contact_by_id contacts contact_id with
  | none => none
  | some c =>
    some (contacts.map
      (fun x => if x.id == contact_id then applyContactData d x else x),
      applyContactData d c)

/-- `delete_contact` (crud.py lines 81-94): loads by id and deletes the row;
on a missing id `db.delete(None)` raises, modelled as `none`. -/
def delete_contact (contacts : List ContactRec) (contact_id : Nat) :
    Option (List ContactRec) :=
  match get_contact_by_id contacts contact_id with
  | none => none
  | some _ => some (contacts.filter (fun x => !(x.id == contact_id)))

/-- Case-insensitive containment, modelling SQL `ilike "%q%"` for a
wildcard-free `q` (crud.py lines 113-117). -/
def ilikeContains (field pattern : String) : Bool :=
  let hay := field.toList.map Char.toLower
  let needle := pattern.toList.map Char.toLower
  (List.range (hay.length + 1)).any
    (fun i => ((hay.drop i).take needle.length) == needle)

/-- `search_contacts` (crud.py lines 97-122): rows whose first name, last
name or email contains the query case-insensitively, paginated. -/
def search_contacts (contacts : List ContactRec) (query : String)
    (skip limit : Nat) : List ContactRec :=
  ((contacts.filter (fun c =>
      ilikeContains c.first_name query || ilikeContains c.last_name query ||
        ilikeContains c.email query)).drop skip).take limit

/-- `upcoming_birthdays` (crud.py lines 125-137): rows whose birthday lies
between today and today + 7 days, both inclusive (`Column.between` is
inclusive); `today` models `datetime.now().date()`. -/
def upcoming_birthdays (contacts : List ContactRec) (today : Nat) :
    List ContactRec :=
  contacts.filter (fun c => decide (today ≤ c.birthday ∧ c.birthday ≤ today + 7))

/-! ### Rate limiter (slowapi) and the contact-creation endpoint -/

/-- Modelled from the spec (§4.3): the external slowapi limiter configured
`"5/minute"` and keyed by remote address (main.py lines 45 and 214).  A
request is allowed when fewer than 5 hits from the same client fall inside
the rolling 60-second window ending now; every request is counted. -/
def rateLimitAllow (hits : List Nat) (now : Nat) : Bool :=
  (hits.filter (fun tm => decide (now < tm + 60))).length < 5

/-- The hit timestamps recorded for one client, newest first. -/
def clientHits (hits : List (String × Nat)) (client : String) : List Nat :=
  (hits.filter (fun h => h.1 == client)).map (fun h => h.2)

/-- The application state shared across requests: the two tables, the
contact autoincrement counter and the limiter's per-client hit records. -/
structure AppState where
  users : UserDB
  contacts : List ContactRec
  nextContactId : Nat
  hits : List (String × Nat)
deriving DecidableEq, Repr

/-- Outcome of `POST /contacts/`. -/
inductive CreateContactResult where
  | ok (contact : ContactRec)
  | unauthenticated
  | rateLimited
deriving DecidableEq, Repr

/-- The HTTP status each `POST /contacts/` outcome is surfaced as. -/
def CreateContactResult.httpStatus : CreateContactResult → Nat
  | .ok _ => 200
  | .unauthenticated => 401
  | .rateLimited => 429

/-- `create_new_contact` (main.py lines 213-236): FastAPI resolves the
`get_current_user` dependency first; the slowapi wrapper then records the
hit keyed by the remote address and rejects with 429 when over budget;
within budget the row is inserted via `create_contact`. -/
def create_new_contact (env : Env) (st : AppState) (client : String)
    (token : Jwt) (c : ContactCreate) (now : Nat) :
    AppState × CreateContactResult :=
  match get_current_user env token st.users now with
  | .unauthenticated => (st, .unauthenticated)
  | .ok user =>
    if rateLimitAllow (clientHits st.hits client) now then
      ({ st with
          contacts := (create_contact st.contacts st.nextContactId c user).1,
          nextContactId := st.nextContactId + 1,
          hits := (client, now) :: st.hits },
        .ok (create_contact st.contacts st.nextContactId c user).2)
    else
      ({ st with hits := (client, now) :: st.hits }, .rateLimited)

/-- Runs a sequence of `POST /contacts/` requests from one client with one
token and payload, at the given times, threading the application state. -/
def runCreateRequests (env : Env) (client : String) (token : Jwt)
    (c : ContactCreate) : AppState → List Nat →
    AppState × List CreateContactResult
  | st, [] => (st, [])
  | st, tm :: rest =>
    ((runCreateRequests env client token c
        (create_new_contact env st client token c tm).1 rest).1,
      (create_new_contact env st client token c tm).2 ::
        (runCreateRequests env client token c
          (create_new_contact env st client token c tm).1 rest).2)

/-! ### The unauthenticated contact endpoints (main.py) -/

/-- `get_all_contacts` (main.py lines 239-252): the endpoint declares no
credential dependency — `caller` models whatever token the HTTP caller may
present, which the handler never reads. -/
def get_all_contacts (caller : Option Jwt) (st : AppState)
    (skip limit : Nat) : List ContactRec :=
  get_contacts st.contacts skip limit

/-- `get_contact` (main.py lines 255-270): no credential dependency. -/
def get_contact (caller : Option Jwt) (st : AppState) (contact_id : Nat) :
    Option ContactRec :=
  get_contact_by_id st.contacts contact_id

/-- `update_existing_contact` (main.py lines 273-291): no credential
dependency; updates whatever contact has the id, whoever owns it. -/
def update_existing_contact (caller : Option Jwt) (st : AppState)
    (contact_id : Nat) (d : ContactCreate) : Option (AppState × ContactRec) :=
  (update_contact st.contacts contact_id d).map
    (fun r => ({ st with contacts := r.1 }, r.2))

/-- `delete_existing_contact` (main.py lines 294-309): no credential
dependency; deletes whatever contact has the id, whoever owns it. -/
def delete_existing_contact (caller : Option Jwt) (st : AppState)
    (contact_id : Nat) : Option AppState :=
  (delete_contact st.contacts contact_id).map
    (fun cs => { st with contacts := cs })

/-- `search_contacts_api` (main.py lines 312-328): no credential
dependency. -/
def search_contacts_api (caller : Option Jwt) (st : AppState)
    (query : String) (skip limit : Nat) : List ContactRec :=
  search_contacts st.contacts query skip limit

/-- `get_upcoming_birthdays` (main.py lines 331-342): no credential
dependency. -/
def get_upcoming_birthdays (caller : Option Jwt) (st : AppState)
    (today : Nat) : List ContactRec :=
  upcoming_birthdays st.contacts today

/-! ### Sample data used by witnesses -/

/-- A sample server configuration. -/
def sampleEnv : Env := ⟨"change-me", "HS256"⟩

/-- A sample stored user, unverified, holding verification token `"tok123"`. -/
def sampleUser : UserRec :=
  ⟨1, "a@x.com", get_password_hash "s1" "longpassword1", false,
    some "tok123", none⟩

/-- A sample contact payload. -/
def sampleContactData : ContactCreate :=
  ⟨"Ann", "Lee", "ann@x.com", "123", 40, "friend"⟩

/-- A sample application state holding just `sampleUser` and no contacts. -/
def sampleState : AppState := ⟨[sampleUser], [], 1, []⟩

/-! ### C7: password hash round-trip -/

/-- C7: for every password `P`, `verify(P, hash(P))` is true, and for every
password `P'` different from `P`, `verify(P', hash(P))` is false. -/
theorem password_hash_roundtrip (salt p q : String) :
    verify_password p (get_password_hash salt p) = true ∧
      (q ≠ p → verify_password q (get_password_hash salt p) = false) := by
  constructor
  · simp [verify_password, get_password_hash]
  · intro h
    simp [verify_password, get_password_hash, h]

/-- Witness for C7 at concrete passwords. -/
theorem password_hash_roundtrip_witness :
    verify_password "longpassword1" (get_password_hash "s1" "longpassword1") = true ∧
      verify_password "wrongpass123" (get_password_hash "s1" "longpassword1") = false :=
  ⟨(password_hash_roundtrip "s1" "longpassword1" "wrongpass123").1,
    (password_hash_roundtrip "s1" "longpassword1" "wrongpass123").2 (by decide)⟩

/-! ### C2: access-token lifetime -/

/-- C2: an access token issued for subject `s` at time `t` decodes
successfully to the original subject at any time before `t + 15` minutes,
and decoding fails at any time at or after `t + 15` minutes, under the same
secret and algorithm. -/
theorem access_token_decode_spec (env : Env) (s : String) (t now : Nat) :
    (now < t + accessTokenTtl →
      jwt_decode (create_access_token env (some s) t) env now =
        some ⟨some s, t + accessTokenTtl⟩) ∧
      (t + accessTokenTtl ≤ now →
        jwt_decode (create_access_token env (some s) t) env now = none) := by
  constructor
  · intro h
    simp [jwt_decode, create_access_token, jwt_encode, h]
  · intro h
    simp only [jwt_decode, create_access_token, jwt_encode]
    rw [if_neg]
    intro hc
    omega

/-- Witness for C2: a token minted at time 0 decodes at 100 seconds and is
rejected at 900 seconds. -/
theorem access_token_decode_spec_witness :
    jwt_decode (create_access_token sampleEnv (some "a@x.com") 0) sampleEnv 100 =
        some ⟨some "a@x.com", 900⟩ ∧
      jwt_decode (create_access_token sampleEnv (some "a@x.com") 0) sampleEnv 900 =
        none :=
  ⟨(access_token_decode_spec sampleEnv "a@x.com" 0 100).1 (by decide),
    (access_token_decode_spec sampleEnv "a@x.com" 0 900).2 (by decide)⟩

/-! ### C9: access and refresh tokens are interchangeable -/

/-- C9: access and refresh tokens are built by the same encoder with the same
secret, algorithm and claim shape, differing only in lifetime, and are
validated by the same decode; consequently an unexpired access token is
accepted by the refresh endpoint, and an unexpired refresh token is accepted
by current-user resolution. -/
theorem token_interchangeability (env : Env) (s : String) (t now : Nat)
    (db : UserDB) (u : UserRec) :
    create_access_token env (some s) t =
        jwt_encode ⟨some s, t + accessTokenTtl⟩ env ∧
      create_refresh_token env (some s) t =
        jwt_encode ⟨some s, t + refreshTokenTtl⟩ env ∧
      (∀ tok n, verify_refresh_token env tok n = jwt_decode tok env n) ∧
      (now < t + accessTokenTtl →
        refresh_access_token env (create_access_token env (some s) t) now =
          .ok (create_access_token env (some s) now)) ∧
      (now < t + refreshTokenTtl → get_user_by_email db s = some u →
        get_current_user env (create_refresh_token env (some s) t) db now =
          .ok u) := by
  refine ⟨rfl, rfl, fun _ _ => rfl, ?_, ?_⟩
  · intro h
    simp [refresh_access_token, verify_refresh_token, jwt_decode,
      create_access_token, jwt_encode, h]
  · intro h hu
    simp [get_current_user, jwt_decode, create_refresh_token, jwt_encode, h, hu]

/-- Witness for C9: a fresh access token is accepted by the refresh
endpoint, and a fresh refresh token is accepted by current-user
resolution. -/
theorem token_interchangeability_witness :
    refresh_access_token sampleEnv
        (create_access_token sampleEnv (some "a@x.com") 0) 100 =
        .ok (create_access_token sampleEnv (some "a@x.com") 100) ∧
      get_current_user sampleEnv
        (create_refresh_token sampleEnv (some "a@x.com") 0) [sampleUser] 100 =
        .ok sampleUser :=
  ⟨(token_interchangeability sampleEnv "a@x.com" 0 100 [sampleUser]
      sampleUser).2.2.2.1 (by decide),
    (token_interchangeability sampleEnv "a@x.com" 0 100 [sampleUser]
      sampleUser).2.2.2.2 (by decide) (by decide)⟩

/-! ### C5: the refresh endpoint -/

/-- C5 counterexample: a token that decodes successfully (signed with the
server key, unexpired) but carries no `sub` claim makes the refresh endpoint
raise an uncaught `KeyError` (a server error) instead of issuing a new
access token. -/
theorem refresh_missing_sub_counterexample :
    (jwt_decode ⟨⟨none, 100⟩, "change-me", "HS256"⟩ sampleEnv 0).isSome = true ∧
      refresh_access_token sampleEnv ⟨⟨none, 100⟩, "change-me", "HS256"⟩ 0 =
        .serverError := by
  constructor <;> decide

/-- C5 (amended): decode failure yields `InvalidToken` (401); a decodable
token carrying a `sub` claim yields a new access token bound to that
subject; and the refresh token is never rotated or invalidated — it can be
presented repeatedly until its natural expiry. -/
theorem refresh_token_spec (env : Env) (token : Jwt) (now : Nat) :
    (jwt_decode token env now = none →
      refresh_access_token env token now = .invalidToken) ∧
      (∀ s e, jwt_decode token env now = some ⟨some s, e⟩ →
        refresh_access_token env token now =
          .ok (create_access_token env (some s) now)) ∧
      (∀ s t n₁ n₂, n₁ < t + refreshTokenTtl → n₂ < t + refreshTokenTtl →
        refresh_access_token env (create_refresh_token env (some s) t) n₁ =
            .ok (create_access_token env (some s) n₁) ∧
          refresh_access_token env (create_refresh_token env (some s) t) n₂ =
            .ok (create_access_token env (some s) n₂)) := by
  refine ⟨?_, ?_, ?_⟩
  · intro h
    simp [refresh_access_token, verify_refresh_token, h]
  · intro s e h
    simp [refresh_access_token, verify_refresh_token, h]
  · intro s t n₁ n₂ h₁ h₂
    constructor <;>
      simp [refresh_access_token, verify_refresh_token, jwt_decode,
        create_refresh_token, create_access_token, jwt_encode, h₁, h₂]

/-- Witness for C5's amended theorem: one refresh token re-used at two
different times yields a fresh access token both times. -/
theorem refresh_token_spec_witness :
    refresh_access_token sampleEnv
        (create_refresh_token sampleEnv (some "a@x.com") 0) 100 =
        .ok (create_access_token sampleEnv (some "a@x.com") 100) ∧
      refresh_access_token sampleEnv
        (create_refresh_token sampleEnv (some "a@x.com") 0) 200 =
        .ok (create_access_token sampleEnv (some "a@x.com") 200) :=
  (refresh_token_spec sampleEnv
      (create_refresh_token sampleEnv (some "a@x.com") 0) 100).2.2
    "a@x.com" 0 100 200 (by decide) (by decide)

/-! ### C4: login failure modes -/

/-- C4: login fails with `InvalidCredentials` (401) exactly when the email is
unknown or the password does not verify against the stored hash; the two
failure causes produce identical responses; otherwise login issues a fresh
access token and a fresh refresh token bound to the email as subject. -/
theorem login_error_spec (env : Env) (db : UserDB) (e p : String) (now : Nat) :
    (login_for_access_token env db e p now = .invalidCredentials ↔
      get_user_by_email db e = none ∨
        ∃ u, get_user_by_email db e = some u ∧
          verify_password p u.hashed_password = false) ∧
      (∀ u, get_user_by_email db e = some u →
        verify_password p u.hashed_password = true →
        login_for_access_token env db e p now =
          .ok (create_access_token env (some e) now)
            (create_refresh_token env (some e) now)) ∧
      (∀ db₂ e₂ p₂ now₂ u₂, get_user_by_email db e = none →
        get_user_by_email db₂ e₂ = some u₂ →
        verify_password p₂ u₂.hashed_password = false →
        login_for_access_token env db e p now =
          login_for_access_token env db₂ e₂ p₂ now₂) := by
  refine ⟨⟨?_, ?_⟩, ?_, ?_⟩
  · intro h
    cases hu : get_user_by_email db e with
    | none => exact Or.inl rfl
    | some u =>
      refine Or.inr ⟨u, rfl, ?_⟩
      by_contra hv
      rw [Bool.not_eq_false] at hv
      simp [login_for_access_token, hu, hv] at h
  · intro h
    rcases h with h | ⟨u, hu, hv⟩
    · simp [login_for_access_token, h]
    · simp [login_for_access_token, hu, hv]
  · intro u hu hv
    simp [login_for_access_token, hu, hv]
  · intro db₂ e₂ p₂ now₂ u₂ h1 h2 h3
    simp [login_for_access_token, h1, h2, h3]

/-- Witness for C4: correct credentials yield the two tokens; an unknown
email and a wrong password yield literally the same response. -/
theorem login_error_spec_witness :
    login_for_access_token sampleEnv [sampleUser] "a@x.com" "longpassword1" 0 =
        .ok (create_access_token sampleEnv (some "a@x.com") 0)
          (create_refresh_token sampleEnv (some "a@x.com") 0) ∧
      login_for_access_token sampleEnv [sampleUser] "nobody@x.com" "longpassword1" 0 =
        login_for_access_token sampleEnv [sampleUser] "a@x.com" "wrongpass" 7 :=
  ⟨(login_error_spec sampleEnv [sampleUser] "a@x.com" "longpassword1" 0).2.1
      sampleUser (by decide) (by decide),
    (login_error_spec sampleEnv [sampleUser] "nobody@x.com" "longpassword1" 0).2.2
      [sampleUser] "a@x.com" "wrongpass" 7 sampleUser (by decide) (by decide)
      (by decide)⟩

/-! ### C10: login never consults the verified flag -/

/-- C10: the login outcome is unchanged under arbitrary rewrites of every
user's `is_verified` flag, and any stored user presenting the correct email
and password obtains both tokens — email verification is not a precondition
for login. -/
theorem login_ignores_verified_flag (env : Env) (db : UserDB) (e p : String)
    (now : Nat) (f : UserRec → Bool) :
    login_for_access_token env
        (db.map (fun u => { u with is_verified := f u })) e p now =
      login_for_access_token env db e p now ∧
      (∀ u, get_user_by_email db e = some u →
        verify_password p u.hashed_password = true →
        login_for_access_token env db e p now =
          .ok (create_access_token env (some e) now)
            (create_refresh_token env (some e) now)) := by
  constructor
  · have hfind : get_user_by_email
        (db.map (fun u => { u with is_verified := f u })) e =
        (get_user_by_email db e).map (fun u => { u with is_verified := f u }) := by
      simp only [get_user_by_email, List.find?_map]
      rfl
    cases hu : get_user_by_email db e with
    | none => simp [login_for_access_token, hfind, hu]
    | some u =>
      simp only [login_for_access_token, hfind, hu, Option.map_some']
  · intro u hu hv
    simp [login_for_access_token, hu, hv]

/-- Witness for C10: `sampleUser` is unverified and still obtains both
tokens with the correct credentials. -/
theorem login_ignores_verified_flag_witness :
    sampleUser.is_verified = false ∧
      login_for_access_token sampleEnv [sampleUser] "a@x.com" "longpassword1" 3 =
        .ok (create_access_token sampleEnv (some "a@x.com") 3)
          (create_refresh_token sampleEnv (some "a@x.com") 3) :=
  ⟨by decide,
    (login_ignores_verified_flag sampleEnv [sampleUser] "a@x.com" "longpassword1" 3
      (fun _ => true)).2 sampleUser (by decide) (by decide)⟩

/-! ### C8: only contact creation is authenticated -/

/-- C8: the contact list, get-by-id, update, delete, search and
upcoming-birthday handlers take no credential, so any two callers (with or
without a token) get the same results and the same effects over all users'
contacts, and the full list endpoint returns every stored contact whoever
owns it; contact creation, by contrast, does resolve the caller and rejects
a token signed with a different key. -/
theorem contact_endpoints_unauthenticated (c₁ c₂ : Option Jwt) (st : AppState)
    (skip limit cid today : Nat) (q : String) (d : ContactCreate) :
    get_all_contacts c₁ st skip limit = get_all_contacts c₂ st skip limit ∧
      get_contact c₁ st cid = get_contact c₂ st cid ∧
      update_existing_contact c₁ st cid d = update_existing_contact c₂ st cid d ∧
      delete_existing_contact c₁ st cid = delete_existing_contact c₂ st cid ∧
      search_contacts_api c₁ st q skip limit =
        search_contacts_api c₂ st q skip limit ∧
      get_upcoming_birthdays c₁ st today = get_upcoming_birthdays c₂ st today ∧
      get_all_contacts c₁ st 0 st.contacts.length = st.contacts ∧
      (create_new_contact sampleEnv sampleState "cl"
          (create_access_token sampleEnv (some "a@x.com") 0)
          sampleContactData 0).2 =
        .ok ⟨1, "Ann", "Lee", "ann@x.com", "123", 40, "friend", some 1⟩ ∧
      (create_new_contact sampleEnv sampleState "cl"
          (create_access_token ⟨"other-key", "HS256"⟩ (some "a@x.com") 0)
          sampleContactData 0).2 = .unauthenticated := by
  refine ⟨rfl, rfl, rfl, rfl, rfl, rfl, ?_, by decide, by decide⟩
  simp [get_all_contacts, get_contacts]

/-! ### C1 and C3: the verification-token life cycle -/

/-- `verify` finds no user exactly when no stored user holds the token. -/
lemma verifyUpdate_eq_none (token : String) (db : UserDB) :
    verifyUpdate token db = none ↔
      ∀ u ∈ db, u.verification_token ≠ some token := by
  induction db with
  | nil => simp [verifyUpdate]
  | cons u rest ih =>
    by_cases h : u.verification_token = some token
    · simp [verifyUpdate, h]
    · simp [verifyUpdate, h, ih]

/-- When the first holder of the token is `u`, `verify`'s query matches `u`
and the commit rewrites exactly that row. -/
lemma verifyUpdate_split (token : String) (pre post : List UserRec)
    (u : UserRec) (hu : u.verification_token = some token)
    (hpre : ∀ v ∈ pre, v.verification_token ≠ some token) :
    verifyUpdate token (pre ++ u :: post) =
      some (pre ++ consumeVerification u :: post) := by
  induction pre with
  | nil => simp [verifyUpdate, hu]
  | cons v rest ih =>
    have hv : v.verification_token ≠ some token := hpre v (by simp)
    have hrest : verifyUpdate token (rest ++ u :: post) =
        some (rest ++ consumeVerification u :: post) :=
      ih (fun w hw => hpre w (by simp [hw]))
    simp [verifyUpdate, hv, hrest]

/-- Splitting the holder count at a user who holds the token. -/
lemma countHolders_split (pre post : List UserRec) (u : UserRec)
    (token : String) (hu : u.verification_token = some token) :
    countHolders (pre ++ u :: post) token =
      countHolders pre token + 1 + countHolders post token := by
  simp only [countHolders, List.filter_append, List.filter_cons, hu,
    beq_self_eq_true, if_pos, List.length_append, List.length_cons]
  omega

/-- A stored holder of the token makes the holder count positive. -/
lemma one_le_countHolders (db : UserDB) (v : UserRec) (token : String)
    (hv : v ∈ db) (ht : v.verification_token = some token) :
    1 ≤ countHolders db token := by
  have hmem : v ∈ db.filter (fun u => u.verification_token == some token) :=
    List.mem_filter.mpr ⟨hv, by simp [ht]⟩
  exact List.length_pos.mpr (List.ne_nil_of_mem hmem)

/-- A successful `verify` removes exactly one holder of the token. -/
lemma verifyUpdate_count (token : String) (db db' : UserDB)
    (h : verifyUpdate token db = some db') :
    countHolders db' token + 1 = countHolders db token := by
  induction db generalizing db' with
  | nil => simp [verifyUpdate] at h
  | cons u rest ih =>
    by_cases hu : u.verification_token = some token
    · rw [verifyUpdate, if_pos hu] at h
      cases h
      simp [countHolders, List.filter_cons, hu, consumeVerification,
        commitLoaded, verifyAssignments]
    · rw [verifyUpdate, if_neg hu] at h
      cases hr : verifyUpdate token rest with
      | none => rw [hr] at h; cases h
      | some r =>
        rw [hr] at h
        cases h
        have hne : (u.verification_token == some token) = false := by
          simpa using hu
        simp only [countHolders, List.filter_cons, hne, Bool.false_eq_true,
          if_false] at *
        exact ih r hr

/-- What `verify` persists when a stored user holds the supplied token (at
most one can, by the unique index): exactly that user with
`is_verified = true` and the token cleared; when no user holds the token,
`verify` fails with `InvalidToken` (400). -/
theorem verify_persisted_transition (db : UserDB) (tok : String) :
    (∀ pre post u, db = pre ++ u :: post → u.verification_token = some tok →
      countHolders db tok ≤ 1 →
      verify db tok = .ok (pre ++ consumeVerification u :: post)) ∧
      ((∀ u ∈ db, u.verification_token ≠ some tok) →
        verify db tok = .invalidToken) ∧
      (∀ u, consumeVerification u =
        { u with is_verified := true, verification_token := none }) := by
  refine ⟨?_, ?_, fun u => rfl⟩
  · intro pre post u hdb hu huniq
    subst hdb
    have hsplit := countHolders_split pre post u tok hu
    have hpre : ∀ v ∈ pre, v.verification_token ≠ some tok := by
      intro v hv hvtok
      have h1 := one_le_countHolders pre v tok hv hvtok
      omega
    rw [verify, verifyUpdate_split tok pre post u hu hpre]
  · intro h
    rw [verify, (verifyUpdate_eq_none tok db).mpr h]

/-- Witness for the persisted-transition theorem: verifying `sampleUser`'s
token commits the consumed row; verifying against an empty store fails with
`InvalidToken`. -/
theorem verify_persisted_transition_witness :
    verify [sampleUser] "tok123" = .ok [consumeVerification sampleUser] ∧
      verify [] "tok123" = .invalidToken :=
  ⟨(verify_persisted_transition [sampleUser] "tok123").1 [] [] sampleUser rfl
      (by decide) (by decide),
    (verify_persisted_transition [] "tok123").2.1 (by simp)⟩

/-- C1, evaluated at the failing input (a store holding `sampleUser`, whose
verification token is `"tok123"`, then `GET /verify/tok123`): the handler's
in-memory object briefly carries `is_active = true`, but the committed row
— written out field by field: id, email, hashed password, `is_verified`,
`verification_token`, avatar URL — persists only `is_verified = true` and
the cleared token, because the users table has no active column for
`db.commit()` to write. -/
theorem verify_active_flag_not_persisted :
    (verifyAssignments sampleUser).is_active = some true ∧
      commitLoaded (verifyAssignments sampleUser) =
        ⟨1, "a@x.com", get_password_hash "s1" "longpassword1", true,
          none, none⟩ ∧
      verify [sampleUser] "tok123" =
        .ok [⟨1, "a@x.com", get_password_hash "s1" "longpassword1", true,
          none, none⟩] := by
  refine ⟨rfl, rfl, by decide⟩

/-- C3: the verification token is single-use — after a successful `verify`
(with the unique index guaranteeing at most one holder) no user in the
committed table holds the token any more, so a subsequent `verify` with the
same token fails with `InvalidToken` (400): of the two calls exactly one
succeeds. -/
theorem verification_token_single_use (db db' : UserDB) (tok : String)
    (hok : verify db tok = .ok db')
    (huniq : countHolders db tok ≤ 1) :
    (∀ v ∈ db', v.verification_token ≠ some tok) ∧
      verify db' tok = .invalidToken := by
  have hupd : verifyUpdate tok db = some db' := by
    unfold verify at hok
    cases h : verifyUpdate tok db with
    | none => rw [h] at hok; cases hok
    | some d => rw [h] at hok; cases hok; rfl
  have hcount := verifyUpdate_count tok db db' hupd
  have hnone : ∀ v ∈ db', v.verification_token ≠ some tok := by
    intro v hv ht
    have := one_le_countHolders db' v tok hv ht
    omega
  exact ⟨hnone, by rw [verify, (verifyUpdate_eq_none tok db').mpr hnone]⟩

/-- Witness for C3: after consuming `sampleUser`'s token, presenting the
same token again fails with `InvalidToken`. -/
theorem verification_token_single_use_witness :
    verify [consumeVerification sampleUser] "tok123" = .invalidToken :=
  (verification_token_single_use [sampleUser] [consumeVerification sampleUser]
    "tok123" (by decide) (by decide)).2

/-! ### C6: the contact-creation rate limit -/

/-- A hit recorded for a client is prepended to that client's hit list. -/
lemma clientHits_cons_self (hits : List (String × Nat)) (client : String)
    (t : Nat) :
    clientHits ((client, t) :: hits) client = t :: clientHits hits client := by
  simp [clientHits]

/-- When every recorded hit is inside the window, the limiter just counts
the hits. -/
lemma rateLimitAllow_all (l : List Nat) (now : Nat)
    (h : ∀ x ∈ l, now < x + 60) :
    rateLimitAllow l now = decide (l.length < 5) := by
  unfold rateLimitAllow
  rw [List.filter_eq_self.mpr (fun x hx => decide_eq_true (h x hx))]

/-- One authenticated `POST /contacts/` request: the user table is
untouched, the hit is recorded, and the response is 200 or 429 according to
the limiter's window count. -/
lemma create_step_authed (env : Env) (st : AppState) (client email : String)
    (u : UserRec) (token : Jwt) (c : ContactCreate) (now : Nat)
    (hkey : token.key = env.secretKey) (halg : token.alg = env.algorithm)
    (hsub : token.claims.sub = some email)
    (huser : get_user_by_email st.users email = some u)
    (hexp : now < token.claims.exp) :
    (create_new_contact env st client token c now).1.users = st.users ∧
      (create_new_contact env st client token c now).1.hits =
        (client, now) :: st.hits ∧
      (create_new_contact env st client token c now).2.httpStatus =
        (if rateLimitAllow (clientHits st.hits client) now then 200 else 429) := by
  have hdec : jwt_decode token env now = some token.claims := by
    simp [jwt_decode, hkey, halg, hexp]
  have hcur : get_current_user env token st.users now = .ok u := by
    simp [get_current_user, hdec, hsub, huser]
  by_cases hall : rateLimitAllow (clientHits st.hits client) now <;>
    simp [create_new_contact, hcur, hall, CreateContactResult.httpStatus]

/-- C6: from one client identity, 5 authenticated contact-creation requests
within one 60-second window all succeed (HTTP 200), and the 6th request from
the same client within the same window is answered with `RateLimited`
(HTTP 429), not silently dropped or queued. -/
theorem rate_limit_window_spec (env : Env) (st : AppState)
    (client email : String) (u : UserRec) (token : Jwt) (c : ContactCreate)
    (t₁ t₂ t₃ t₄ t₅ t₆ : Nat)
    (hkey : token.key = env.secretKey) (halg : token.alg = env.algorithm)
    (hsub : token.claims.sub = some email)
    (huser : get_user_by_email st.users email = some u)
    (hexp : t₆ < token.claims.exp)
    (h12 : t₁ ≤ t₂) (h23 : t₂ ≤ t₃) (h34 : t₃ ≤ t₄) (h45 : t₄ ≤ t₅)
    (h56 : t₅ ≤ t₆) (hwin : t₆ < t₁ + 60)
    (hfresh : clientHits st.hits client = []) :
    ((runCreateRequests env client token c st [t₁, t₂, t₃, t₄, t₅, t₆]).2).map
        CreateContactResult.httpStatus = [200, 200, 200, 200, 200, 429] := by
  obtain ⟨hu₁, hh₁, hs₁⟩ := create_step_authed env st client email u token c t₁
    hkey halg hsub huser (by omega)
  set st₁ := (create_new_contact env st client token c t₁).1 with hst₁def
  have hch₁ : clientHits st₁.hits client = [t₁] := by
    rw [hh₁, clientHits_cons_self, hfresh]
  have huser₁ : get_user_by_email st₁.users email = some u := by
    rw [hu₁]; exact huser
  obtain ⟨hu₂, hh₂, hs₂⟩ := create_step_authed env st₁ client email u token c t₂
    hkey halg hsub huser₁ (by omega)
  set st₂ := (create_new_contact env st₁ client token c t₂).1 with hst₂def
  have hch₂ : clientHits st₂.hits client = [t₂, t₁] := by
    rw [hh₂, clientHits_cons_self, hch₁]
  have huser₂ : get_user_by_email st₂.users email = some u := by
    rw [hu₂]; exact huser₁
  obtain ⟨hu₃, hh₃, hs₃⟩ := create_step_authed env st₂ client email u token c t₃
    hkey halg hsub huser₂ (by omega)
  set st₃ := (create_new_contact env st₂ client token c t₃).1 with hst₃def
  have hch₃ : clientHits st₃.hits client = [t₃, t₂, t₁] := by
    rw [hh₃, clientHits_cons_self, hch₂]
  have huser₃ : get_user_by_email st₃.users email = some u := by
    rw [hu₃]; exact huser₂
  obtain ⟨hu₄, hh₄, hs₄⟩ := create_step_authed env st₃ client email u token c t₄
    hkey halg hsub huser₃ (by omega)
  set st₄ := (create_new_contact env st₃ client token c t₄).1 with hst₄def
  have hch₄ : clientHits st₄.hits client = [t₄, t₃, t₂, t₁] := by
    rw [hh₄, clientHits_cons_self, hch₃]
  have huser₄ : get_user_by_email st₄.users email = some u := by
    rw [hu₄]; exact huser₃
  obtain ⟨hu₅, hh₅, hs₅⟩ := create_step_authed env st₄ client email u token c t₅
    hkey halg hsub huser₄ (by omega)
  set st₅ := (create_new_contact env st₄ client token c t₅).1 with hst₅def
  have hch₅ : clientHits st₅.hits client = [t₅, t₄, t₃, t₂, t₁] := by
    rw [hh₅, clientHits_cons_self, hch₄]
  have huser₅ : get_user_by_email st₅.users email = some u := by
    rw [hu₅]; exact huser₄
  obtain ⟨hu₆, hh₆, hs₆⟩ := create_step_authed env st₅ client email u token c t₆
    hkey halg hsub huser₅ (by omega)
  have ha₁ : rateLimitAllow (clientHits st.hits client) t₁ = true := by
    rw [hfresh]; rfl
  have ha₂ : rateLimitAllow (clientHits st₁.hits client) t₂ = true := by
    rw [hch₁, rateLimitAllow_all]
    · rfl
    · intro x hx
      simp only [List.mem_singleton] at hx
      subst hx; omega
  have ha₃ : rateLimitAllow (clientHits st₂.hits client) t₃ = true := by
    rw [hch₂, rateLimitAllow_all]
    · rfl
    · intro x hx
      simp only [List.mem_cons, List.not_mem_nil, or_false] at hx
      rcases hx with rfl | rfl <;> omega
  have ha₄ : rateLimitAllow (clientHits st₃.hits client) t₄ = true := by
    rw [hch₃, rateLimitAllow_all]
    · rfl
    · intro x hx
      simp only [List.mem_cons, List.not_mem_nil, or_false] at hx
      rcases hx with rfl | rfl | rfl <;> omega
  have ha₅ : rateLimitAllow (clientHits st₄.hits client) t₅ = true := by
    rw [hch₄, rateLimitAllow_all]
    · rfl
    · intro x hx
      simp only [List.mem_cons, List.not_mem_nil, or_false] at hx
      rcases hx with rfl | rfl | rfl | rfl <;> omega
  have ha₆ : rateLimitAllow (clientHits st₅.hits client) t₆ = false := by
    rw [hch₅, rateLimitAllow_all]
    · rfl
    · intro x hx
      simp only [List.mem_cons, List.not_mem_nil, or_false] at hx
      rcases hx with rfl | rfl | rfl | rfl | rfl <;> omega
  simp only [runCreateRequests, List.map]
  rw [← hst₁def, ← hst₂def, ← hst₃def, ← hst₄def, ← hst₅def]
  rw [hs₁, hs₂, hs₃, hs₄, hs₅, hs₆, ha₁, ha₂, ha₃, ha₄, ha₅, ha₆]
  simp

/-- Witness for C6: six requests at seconds 1..6 with a fresh token from
`sampleUser` give five 200s and then a 429. -/
theorem rate_limit_window_spec_witness :
    ((runCreateRequests sampleEnv "cl"
        (create_access_token sampleEnv (some "a@x.com") 0) sampleContactData
        sampleState [1, 2, 3, 4, 5, 6]).2).map
        CreateContactResult.httpStatus = [200, 200, 200, 200, 200, 429] :=
  rate_limit_window_spec sampleEnv sampleState "cl" "a@x.com" sampleUser
    (create_access_token sampleEnv (some "a@x.com") 0) sampleContactData
    1 2 3 4 5 6 rfl rfl rfl (by decide) (by decide) (by decide) (by decide)
    (by decide) (by decide) (by decide) (by decide) rfl

end Project
